import Mathlib

/-!
# Nucleus: a single-node Kubernetes installer

A shallow embedding of `cmd/nucleus/main.go`, `pkg/installer/install.go` and
`pkg/installer/cleanup.go`.

The program is a sequence of side effects: it prints, starts subprocesses, reads
one file, removes one directory tree and sleeps.  The embedding threads a trace
of these effects (`World`) through every function, and takes the outcome of each
effect from an oracle (`Sys`) that sees the whole trace so far, so that the same
command may succeed at one point of a run and fail at another.
-/

namespace Nucleus

/-! ## Go errors -/

/-- A Go `error` value: its message, and the error it wraps (if any). -/
inductive GoError where
  | leaf (msg : String)
  | wrap (msg : String) (inner : GoError)
deriving DecidableEq, Repr

/-- The method `Error()`. -/
def GoError.Error : GoError → String
  | .leaf msg => msg
  | .wrap msg _ => msg

/-- The method `Unwrap()`. -/
def GoError.Unwrap : GoError → Option GoError
  | .leaf _ => none
  | .wrap _ inner => some inner

/-- The call `fmt.Errorf(text)`, for a format string without verbs. -/
def Errorf (text : String) : GoError := .leaf text

/-- The call `fmt.Errorf(before + "%w", err)`: the message of `err` is appended
to `before`, and the result wraps `err`. -/
def ErrorfW (before : String) (err : GoError) : GoError :=
  .wrap (before ++ err.Error) err

/-! ## Commands, events and the environment -/

/-- The fields of `exec.Cmd` that the program sets.  `Env = none` is Go's nil
slice (the child inherits the environment); `Stdout`/`Stderr` say whether the
stream is attached to `os.Stdout`/`os.Stderr`. -/
structure Cmd where
  Path : String
  Args : List String
  Env : Option (List String)
  Stdout : Bool
  Stderr : Bool
deriving DecidableEq, Repr

/-- One observable effect of the process. -/
inductive Event where
  | stdout (text : String)
  | stderr (text : String)
  | run (c : Cmd)
  | output (c : Cmd)
  | readFile (path : String)
  | removeAll (path : String)
  | sleep (seconds : Nat)
deriving DecidableEq, Repr

/-- The effects performed so far, oldest first. -/
abbrev World := List Event

/-- What the process finds around itself.  Every outcome may depend on the
effects performed before it. -/
structure Sys where
  euid : Nat
  uid : Nat
  gid : Nat
  getenv : String → String
  environ : List String
  lookPath : String → Option String
  runResult : World → Cmd → Option GoError
  outputResult : World → Cmd → String × Option GoError
  readFileResult : World → String → String × Option GoError
  removeAllResult : World → String → Option GoError

/-- A computation of the process: from the trace so far to a value and the
extended trace, or `none` when the goroutine panics. -/
abbrev M (α : Type) := World → Option (α × World)

/-- Return a value without any effect. -/
def ret {α : Type} (a : α) : M α := fun w => some (a, w)

/-- Sequencing: run `m`, then `f` on its value; a panic in either ends the run. -/
def seq {α β : Type} (m : M α) (f : α → M β) : M β := fun w =>
  match m w with
  | none => none
  | some (a, w1) => f a w1

instance : Monad M where
  pure := ret
  bind := seq

/-- A run-time panic. -/
def goPanic {α : Type} : M α := fun _ => none

/-- Record one effect. -/
def emit (e : Event) : M Unit := fun w => some ((), w ++ [e])

/-- The call `fmt.Println(text)`. -/
def Println (text : String) : M Unit := emit (.stdout (text ++ "\n"))

/-- The call `fmt.Print(text)`, also used for `fmt.Printf` once the format is expanded. -/
def Print (text : String) : M Unit := emit (.stdout text)

/-- The call `fmt.Fprintf(os.Stderr, ...)` once the format is expanded. -/
def Eprint (text : String) : M Unit := emit (.stderr text)

/-- The call `time.Sleep(n * time.Second)`. -/
def Sleep (seconds : Nat) : M Unit := emit (.sleep seconds)

/-- The method `cmd.Run()`. -/
def Cmd.Run (env : Sys) (c : Cmd) : M (Option GoError) := fun w =>
  some (env.runResult w c, w ++ [.run c])

/-- The method `cmd.Output()`. -/
def Cmd.Output (env : Sys) (c : Cmd) : M (String × Option GoError) := fun w =>
  some (env.outputResult w c, w ++ [.output c])

/-- The call `os.ReadFile(path)`. -/
def ReadFile (env : Sys) (path : String) : M (String × Option GoError) := fun w =>
  some (env.readFileResult w path, w ++ [.readFile path])

/-- The call `os.RemoveAll(path)`. -/
def RemoveAll (env : Sys) (path : String) : M (Option GoError) := fun w =>
  some (env.removeAllResult w path, w ++ [.removeAll path])

/-- The call `os.UserHomeDir()` on Linux: `$HOME`, or an error when it is empty. -/
def UserHomeDir (env : Sys) : String × Option GoError :=
  if env.getenv "HOME" ≠ "" then (env.getenv "HOME", none)
  else ("", some (.leaf "$HOME is not defined"))

/-! ## Pieces of the Go standard library -/

/-- Drop the trailing slashes of a path. -/
def stripTrailingSlashes (cs : List Char) : List Char :=
  (cs.reverse.dropWhile (· == '/')).reverse

/-- The part of a path after its last slash. -/
def lastElement (cs : List Char) : List Char :=
  (cs.reverse.takeWhile (· != '/')).reverse

/-- The function `filepath.Base` on Linux. -/
def filepathBase (path : String) : String :=
  if path = "" then "."
  else
    let p := lastElement (stripTrailingSlashes path.data)
    if p = [] then "/" else String.mk p

/-- The function `exec.Command(name, arg...)`: the argument vector starts with
`name`; a name without a directory part is looked up in `$PATH`. -/
def Command (env : Sys) (name : String) (arg : List String) : Cmd :=
  { Path := if filepathBase name = name then (env.lookPath name).getD name else name
    Args := name :: arg
    Env := none
    Stdout := false
    Stderr := false }

/-- The statements `cmd.Stdout = os.Stdout; cmd.Stderr = os.Stderr`. -/
def Cmd.attachStd (c : Cmd) : Cmd := { c with Stdout := true, Stderr := true }

/-- The predicate `unicode.IsSpace`. -/
def isSpace (c : Char) : Bool :=
  c == '\t' || c == '\n' || c == '\x0b' || c == '\x0c' || c == '\r' || c == ' ' ||
  c.toNat == 0x85 || c.toNat == 0xA0 || c.toNat == 0x1680 ||
  (0x2000 ≤ c.toNat && c.toNat ≤ 0x200a) ||
  c.toNat == 0x2028 || c.toNat == 0x2029 || c.toNat == 0x202f ||
  c.toNat == 0x205f || c.toNat == 0x3000

/-- The function `strings.TrimSpace`. -/
def TrimSpace (s : String) : String :=
  String.mk ((s.data.dropWhile isSpace).reverse.dropWhile isSpace).reverse

/-- Whether `sub` is an initial segment of `cs`. -/
def startsWith : List Char → List Char → Bool
  | _, [] => true
  | [], _ :: _ => false
  | c :: cs, d :: ds => c == d && startsWith cs ds

/-- Whether `sub` occurs in `cs`. -/
def containsChars : List Char → List Char → Bool
  | [], sub => sub.isEmpty
  | c :: cs, sub => startsWith (c :: cs) sub || containsChars cs sub

/-- The function `strings.Contains`. -/
def Contains (s sub : String) : Bool := containsChars s.data sub.data

/-! ## Helper functions of `install.go` -/

/-- The function `runSudo`: prepend `sudo` if not running as root. -/
def runSudo (env : Sys) (cmd : Cmd) : M (Option GoError) :=
  if env.euid ≠ 0 then
    match cmd.Args with
    | [] => goPanic
    | _ :: rest =>
      let args := cmd.Path :: rest
      let cmd := (Command env "sudo" args).attachStd
      cmd.Run env
  else
    cmd.Run env

/-- The function `runCommands`. -/
def runCommands (env : Sys) : List (List String) → M (Option GoError)
  | [] => ret none
  | cmdArgs :: commands =>
    match cmdArgs with
    | [] => goPanic
    | name :: arg =>
      let cmd := (Command env name arg).attachStd
      seq (runSudo env cmd) fun err =>
        match err with
        | some err => ret (some err)
        | none => runCommands env commands

/-- The function `getArch`. -/
def getArch (env : Sys) : M String := do
  let cmd := Command env "dpkg" ["--print-architecture"]
  let (output, _) ← cmd.Output env
  return TrimSpace output

/-- The function `getLsbRelease`. -/
def getLsbRelease (env : Sys) : M String := do
  let cmd := Command env "lsb_release" ["-cs"]
  let (output, _) ← cmd.Output env
  return TrimSpace output

/-! ## The steps of `Install` -/

/-- The function `installPrerequisites`. -/
def installPrerequisites (env : Sys) : M (Option GoError) :=
  let commands := [
    ["apt-get", "update"],
    ["apt-get", "install", "-y", "apt-transport-https", "ca-certificates", "curl", "gnupg", "lsb-release"]]
  runCommands env commands

/-- The function `enableSystemd`. -/
def enableSystemd (env : Sys) : M (Option GoError) := do
  -- Check if running in WSL
  let cmd := Command env "grep" ["-qi", "microsoft", "/proc/version"]
  match ← cmd.Run env with
  | some _ =>
    Println "  Not running in WSL, skipping systemd configuration"
    return none
  | none =>
  -- Check if /etc/wsl.conf exists and has systemd enabled
  let wslConfPath := "/etc/wsl.conf"
  let (content, err) ← ReadFile env wslConfPath
  if err.isSome || !Contains content "[boot]" || !Contains content "systemd=true" then
    -- Create or update /etc/wsl.conf
    let wslConf := "[boot]\nsystemd=true\n"
    let cmd := Command env "bash" ["-c", "echo '" ++ wslConf ++ "' > " ++ wslConfPath]
    match ← runSudo env cmd with
    | some err => return some (ErrorfW "failed to configure systemd: " err)
    | none =>
    -- needsRestart = true
    Println "  ⚠ Systemd configuration updated. WSL needs to be restarted."
    Println "  Please run 'wsl --shutdown' from Windows PowerShell, then restart WSL."
    Println "  After restart, run 'make install' again."
    return some (Errorf "WSL restart required - please shutdown WSL and restart")
  else
    Println "  Systemd is already enabled"
    return none

/-- The function `installContainerd`. -/
def installContainerd (env : Sys) : M (Option GoError) := do
  -- Add Docker GPG key (needed for containerd.io package)
  let cmd := (Command env "bash" ["-c", "curl -fsSL https://download.docker.com/linux/ubuntu/gpg | gpg --dearmor -o /usr/share/keyrings/docker-archive-keyring.gpg --yes"]).attachStd
  match ← runSudo env cmd with
  | some err => return some err
  | none =>
  -- Add Docker repository (for containerd.io package)
  let arch ← getArch env
  let lsbRelease ← getLsbRelease env
  let repoLine := "deb [arch=" ++ arch ++ " signed-by=/usr/share/keyrings/docker-archive-keyring.gpg] https://download.docker.com/linux/ubuntu " ++ lsbRelease ++ " stable"
  let cmd := Command env "bash" ["-c", "echo '" ++ repoLine ++ "' > /etc/apt/sources.list.d/docker.list"]
  match ← runSudo env cmd with
  | some err => return some err
  | none =>
  -- Install containerd
  let commands := [
    ["apt-get", "update"],
    ["apt-get", "install", "-y", "containerd.io"]]
  runCommands env commands

/-- The function `configureContainerd`. -/
def configureContainerd (env : Sys) : M (Option GoError) := do
  Println "  Generating default containerd configuration..."
  -- Create containerd config directory
  let cmd := Command env "mkdir" ["-p", "/etc/containerd"]
  match ← runSudo env cmd with
  | some err => return some (ErrorfW "failed to create containerd config directory: " err)
  | none =>
  -- Generate default config
  let cmd := Command env "bash" ["-c", "containerd config default > /etc/containerd/config.toml"]
  match ← runSudo env cmd with
  | some err => return some (ErrorfW "failed to generate containerd config: " err)
  | none =>
  -- Enable SystemdCgroup
  let cmd := Command env "sed" ["-i", "s/SystemdCgroup = false/SystemdCgroup = true/g", "/etc/containerd/config.toml"]
  match ← runSudo env cmd with
  | some err => return some (ErrorfW "failed to enable SystemdCgroup: " err)
  | none =>
  -- Restart containerd to apply configuration
  let commands := [
    ["systemctl", "daemon-reload"],
    ["systemctl", "enable", "containerd"],
    ["systemctl", "restart", "containerd"]]
  match ← runCommands env commands with
  | some err => return some (ErrorfW "failed to restart containerd: " err)
  | none =>
  Println "  Waiting for containerd to initialize..."
  Sleep 5
  return none

/-- The function `installKubernetes`. -/
def installKubernetes (env : Sys) : M (Option GoError) := do
  -- Add Kubernetes GPG key (new repository)
  let cmd := (Command env "bash" ["-c", "curl -fsSL https://pkgs.k8s.io/core:/stable:/v1.31/deb/Release.key | gpg --dearmor -o /usr/share/keyrings/kubernetes-apt-keyring.gpg --yes"]).attachStd
  match ← runSudo env cmd with
  | some err => return some err
  | none =>
  -- Add Kubernetes repository (new repository)
  let repoLine := "deb [signed-by=/usr/share/keyrings/kubernetes-apt-keyring.gpg] https://pkgs.k8s.io/core:/stable:/v1.31/deb/ /"
  let cmd := Command env "bash" ["-c", "echo '" ++ repoLine ++ "' > /etc/apt/sources.list.d/kubernetes.list"]
  match ← runSudo env cmd with
  | some err => return some err
  | none =>
  -- Install Kubernetes tools
  let commands := [
    ["apt-get", "update"],
    ["apt-get", "install", "-y", "kubelet", "kubeadm", "kubectl"],
    ["apt-mark", "hold", "kubelet", "kubeadm", "kubectl"]]
  runCommands env commands

/-- The function `disableSwap`. -/
def disableSwap (env : Sys) : M (Option GoError) :=
  let commands := [
    ["swapoff", "-a"],
    ["sed", "-i", "/ swap / s/^/#/", "/etc/fstab"],
    -- Fix mount propagation for WSL2 (required for Cilium)
    ["mount", "--make-shared", "/"]]
  runCommands env commands

/-- The function `initKubeadm`. -/
def initKubeadm (env : Sys) : M (Option GoError) :=
  let cmd := (Command env "kubeadm" ["init",
    "--pod-network-cidr=10.0.0.0/16",
    "--cri-socket=unix:///run/containerd/containerd.sock"]).attachStd
  runSudo env cmd

/-- The end of `configureKubectl` (from the `chown` on), which both branches of
the UID/GID lookup reach. -/
def configureKubectlChown (env : Sys) (sudoUser homeDir kubeDir uid gid : String) :
    M (Option GoError) := do
  let cmd := Command env "chown" [uid ++ ":" ++ gid, kubeDir ++ "/config"]
  match ← runSudo env cmd with
  | some err => return some err
  | none =>
  Print ("  Configured kubectl for user " ++ sudoUser ++ " at " ++ homeDir ++ "/.kube/config\n")
  return none

/-- The function `configureKubectl`. -/
def configureKubectl (env : Sys) : M (Option GoError) := do
  -- Get the actual user (not root when running with sudo)
  let sudoUser := if env.getenv "SUDO_USER" = "" then env.getenv "USER" else env.getenv "SUDO_USER"
  -- Get user's home directory
  let (homeDir, err) :=
    if sudoUser ≠ "" ∧ sudoUser ≠ "root" then ("/home/" ++ sudoUser, none)
    else UserHomeDir env
  match err with
  | some err => return some err
  | none =>
  let kubeDir := homeDir ++ "/.kube"
  -- Create .kube directory as the actual user
  let cmd :=
    if sudoUser ≠ "" ∧ sudoUser ≠ "root" then
      Command env "sudo" ["-u", sudoUser, "mkdir", "-p", kubeDir]
    else Command env "mkdir" ["-p", kubeDir]
  match ← cmd.Run env with
  | some err => return some (ErrorfW "failed to create .kube directory: " err)
  | none =>
  -- Copy admin.conf without interactive prompt
  let cmd := Command env "cp" ["-f", "/etc/kubernetes/admin.conf", kubeDir ++ "/config"]
  match ← runSudo env cmd with
  | some err => return some err
  | none =>
  -- Get the actual user's UID and GID
  if sudoUser ≠ "" ∧ sudoUser ≠ "root" then
    let cmd := Command env "id" ["-u", sudoUser]
    let (uidBytes, err) ← cmd.Output env
    match err with
    | some err => return some (ErrorfW "failed to get user UID: " err)
    | none =>
    let uid := TrimSpace uidBytes
    let cmd := Command env "id" ["-g", sudoUser]
    let (gidBytes, err) ← cmd.Output env
    match err with
    | some err => return some (ErrorfW "failed to get user GID: " err)
    | none =>
    let gid := TrimSpace gidBytes
    configureKubectlChown env sudoUser homeDir kubeDir uid gid
  else
    let uid := toString env.uid
    let gid := toString env.gid
    configureKubectlChown env sudoUser homeDir kubeDir uid gid

/-- The function `installCilium`. -/
def installCilium (env : Sys) : M (Option GoError) := do
  -- Install Cilium CLI first
  Println "  Installing Cilium CLI..."
  -- Determine architecture
  let cmd := Command env "uname" ["-m"]
  let (output, _) ← cmd.Output env
  let arch := if Contains output "aarch64" then "arm64" else "amd64"
  -- Get latest stable version
  let cmd := Command env "bash" ["-c", "curl -s https://raw.githubusercontent.com/cilium/cilium-cli/main/stable.txt"]
  let (versionOutput, err) ← cmd.Output env
  match err with
  | some err => return some (ErrorfW "failed to get Cilium CLI version: " err)
  | none =>
  let version := TrimSpace versionOutput
  -- Download Cilium CLI
  let downloadURL := "https://github.com/cilium/cilium-cli/releases/download/" ++ version ++ "/cilium-linux-" ++ arch ++ ".tar.gz"
  let cmd := (Command env "bash" ["-c", "curl -L --fail --remote-name-all " ++ downloadURL ++ "\x7b,.sha256sum\x7d"]).attachStd
  match ← cmd.Run env with
  | some err => return some (ErrorfW "failed to download Cilium CLI: " err)
  | none =>
  -- Verify checksum
  let tarFile := "cilium-linux-" ++ arch ++ ".tar.gz"
  let cmd := (Command env "sha256sum" ["--check", tarFile ++ ".sha256sum"]).attachStd
  let _ ← cmd.Run env -- Ignore error, continue anyway
  -- Extract to /usr/local/bin
  let cmd := (Command env "tar" ["xzvfC", tarFile, "/usr/local/bin"]).attachStd
  match ← runSudo env cmd with
  | some err => return some (ErrorfW "failed to extract Cilium CLI: " err)
  | none =>
  -- Cleanup downloaded files
  let cmd := Command env "rm" ["-f", tarFile, tarFile ++ ".sha256sum"]
  let _ ← cmd.Run env
  -- Get kubeconfig path
  let kubeconfigPath := "/etc/kubernetes/admin.conf"
  -- Install Cilium using the CLI with version 1.18.2 (latest stable)
  Println "  Installing Cilium CNI..."
  let cmd := Command env "cilium" ["install", "--version", "1.18.2"]
  let cmd := { cmd with Env := some (env.environ ++ ["KUBECONFIG=" ++ kubeconfigPath]) }.attachStd
  cmd.Run env

/-- The function `untaintMaster`. -/
def untaintMaster (env : Sys) : M (Option GoError) := do
  let kubeconfigPath := "/etc/kubernetes/admin.conf"
  let cmd := Command env "kubectl" ["taint", "nodes", "--all", "node-role.kubernetes.io/control-plane-"]
  let cmd := { cmd with Env := some (env.environ ++ ["KUBECONFIG=" ++ kubeconfigPath]) }.attachStd
  -- Ignore error if taint doesn't exist
  let _ ← cmd.Run env
  return none

/-- The function `restartContainerRuntime`. -/
def restartContainerRuntime (env : Sys) : M (Option GoError) := do
  Println "  Restarting containerd..."
  let commands := [["systemctl", "restart", "containerd"]]
  match ← runCommands env commands with
  | some err => return some err
  | none =>
  Println "  Restarting kubelet..."
  let commands := [["systemctl", "restart", "kubelet"]]
  match ← runCommands env commands with
  | some err => return some err
  | none =>
  -- Wait for kubelet to settle
  Println "  Waiting for kubelet to initialize CNI..."
  Sleep 15
  return none

/-! ## `Install` -/

/-- An entry of a step list: `struct { name string; fn func() error }`. -/
structure Step where
  name : String
  fn : M (Option GoError)

/-- The step list of `Install`. -/
def installSteps (env : Sys) : List Step := [
  ⟨"Enabling systemd in WSL", enableSystemd env⟩,
  ⟨"Installing prerequisites", installPrerequisites env⟩,
  ⟨"Installing containerd", installContainerd env⟩,
  ⟨"Installing Kubernetes tools", installKubernetes env⟩,
  ⟨"Configuring containerd for Kubernetes", configureContainerd env⟩,
  ⟨"Disabling swap", disableSwap env⟩,
  ⟨"Initializing Kubernetes master", initKubeadm env⟩,
  ⟨"Configuring kubectl", configureKubectl env⟩,
  ⟨"Installing Cilium CNI", installCilium env⟩,
  ⟨"Restarting container runtime", restartContainerRuntime env⟩,
  ⟨"Untainting master node", untaintMaster env⟩]

/-- The loop of `Install` over a step list, and the `return nil` after it. -/
def installLoop : List Step → M (Option GoError)
  | [] => ret none
  | step :: steps =>
    seq (Print ("→ " ++ step.name ++ "...\n")) fun _ =>
    seq step.fn fun err =>
      match err with
      | some err => ret (some (ErrorfW (step.name ++ " failed: ") err))
      | none => installLoop steps

/-- The function `Install`. -/
def Install (env : Sys) : M (Option GoError) := installLoop (installSteps env)

/-! ## `cleanup.go` -/

/-- A Go `for _, x := range xs` loop whose body neither breaks nor returns. -/
def forEach {α : Type} (body : α → M Unit) : List α → M Unit
  | [] => ret ()
  | x :: xs => seq (body x) fun _ => forEach body xs

/-- The function `resetKubeadm`. -/
def resetKubeadm (env : Sys) : M (Option GoError) :=
  let cmd := (Command env "kubeadm" ["reset", "-f"]).attachStd
  runSudo env cmd

/-- The function `removeKubectlConfig`. -/
def removeKubectlConfig (env : Sys) : M (Option GoError) :=
  match UserHomeDir env with
  | (_, some err) => ret (some err)
  | (homeDir, none) => RemoveAll env (homeDir ++ "/.kube")

/-- The function `stopDockerContainers`. -/
def stopDockerContainers (env : Sys) : M (Option GoError) := do
  -- Stop all containers
  let cmd := (Command env "bash" ["-c", "docker stop $(docker ps -aq) 2>/dev/null || true"]).attachStd
  let _ ← cmd.Run env
  -- Remove all containers
  let cmd := (Command env "bash" ["-c", "docker rm $(docker ps -aq) 2>/dev/null || true"]).attachStd
  let _ ← cmd.Run env
  return none

/-- The loop body shared by `removeKubernetesPackages` and `enableSwap`: build the
command from an argument vector, attach the standard streams, run it through
`runSudo` and drop the result. -/
def runSudoIgnoring (env : Sys) (cmdArgs : List String) : M Unit :=
  match cmdArgs with
  | [] => goPanic
  | name :: arg =>
    let cmd := (Command env name arg).attachStd
    seq (runSudo env cmd) fun _ => ret ()

/-- The function `removeKubernetesPackages`. -/
def removeKubernetesPackages (env : Sys) : M (Option GoError) := do
  let commands := [
    ["apt-mark", "unhold", "kubelet", "kubeadm", "kubectl"],
    ["apt-get", "purge", "-y", "kubelet", "kubeadm", "kubectl"],
    ["apt-get", "autoremove", "-y"]]
  forEach (runSudoIgnoring env) commands
  return none

/-- The function `cleanupDirectories`. -/
def cleanupDirectories (env : Sys) : M (Option GoError) := do
  let dirs := [
    "/etc/kubernetes",
    "/var/lib/kubelet",
    "/var/lib/etcd",
    "/etc/cni/net.d",
    "/opt/cni/bin"]
  forEach (fun dir => seq (runSudo env (Command env "rm" ["-rf", dir])) fun _ => ret ()) dirs
  return none

/-- The function `removeRepoSources`. -/
def removeRepoSources (env : Sys) : M (Option GoError) := do
  let files := [
    "/etc/apt/sources.list.d/kubernetes.list",
    "/etc/apt/sources.list.d/docker.list",
    "/usr/share/keyrings/kubernetes-archive-keyring.gpg",
    "/usr/share/keyrings/kubernetes-apt-keyring.gpg",
    "/usr/share/keyrings/docker-archive-keyring.gpg"]
  forEach (fun file => seq (runSudo env (Command env "rm" ["-f", file])) fun _ => ret ()) files
  let cmd := (Command env "apt-get" ["update"]).attachStd
  let _ ← runSudo env cmd
  return none

/-- The function `enableSwap`. -/
def enableSwap (env : Sys) : M (Option GoError) := do
  let commands := [
    ["sed", "-i", "/^#.*swap/s/^#//", "/etc/fstab"],
    ["bash", "-c", "swapon -a 2>/dev/null || true"]]
  forEach (runSudoIgnoring env) commands
  return none

/-- The step list of `Cleanup`. -/
def cleanupSteps (env : Sys) : List Step := [
  ⟨"Resetting kubeadm", resetKubeadm env⟩,
  ⟨"Removing kubectl configuration", removeKubectlConfig env⟩,
  ⟨"Stopping Docker containers", stopDockerContainers env⟩,
  ⟨"Removing Kubernetes packages", removeKubernetesPackages env⟩,
  ⟨"Cleaning up directories", cleanupDirectories env⟩,
  ⟨"Removing repository sources", removeRepoSources env⟩,
  ⟨"Re-enabling swap", enableSwap env⟩]

/-- The loop of `Cleanup` over a step list, and the `return nil` after it. -/
def cleanupLoop : List Step → M (Option GoError)
  | [] => ret none
  | step :: steps =>
    seq (Print ("→ " ++ step.name ++ "...\n")) fun _ =>
    seq step.fn fun err =>
      match err with
      | some err =>
        -- Log error but continue cleanup
        seq (Print ("  Warning: " ++ step.name ++ ": " ++ err.Error ++ "\n")) fun _ =>
        cleanupLoop steps
      | none => cleanupLoop steps

/-- The function `Cleanup`. -/
def Cleanup (env : Sys) : M (Option GoError) := cleanupLoop (cleanupSteps env)

/-! ## `main.go` -/

/-- How `Parse` of a flag set ends. -/
inductive ParseResult where
  | parsed
  | errHelp
  | failed
deriving DecidableEq, Repr

/-- The flag name in an argument that starts with one or two minus signs: the
text up to the first `=` that is not the first character. -/
def flagName : List Char → List Char
  | [] => []
  | c :: cs => c :: cs.takeWhile (· != '=')

/-- The method `Parse` of the standard `flag` package on a flag set that defines
no flag, as `installCmd` and `cleanupCmd` are: only the first argument decides.
An argument that is not a flag (shorter than two bytes, or not starting with a
minus sign) and the terminator `--` end the parse; `-h`/`-help` give `ErrHelp`;
any other flag is an error.  The text the package writes to standard error is
left out of the trace. -/
def flagSetParse (arguments : List String) : ParseResult :=
  match arguments with
  | [] => .parsed
  | s :: _ =>
    match s.data with
    | '-' :: c :: rest =>
      if c = '-' ∧ rest = [] then .parsed
      else
        let name := if c = '-' then rest else c :: rest
        match name with
        | [] => .failed
        | n :: _ =>
          if n = '-' ∨ n = '=' then .failed
          else if String.mk (flagName name) = "help" ∨ String.mk (flagName name) = "h" then .errHelp
          else .failed
    | _ => .parsed

/-- The function `printUsage`. -/
def printUsage : M Unit := do
  Println "Nucleus - Kubernetes master node installer with Cilium CNI"
  Println ""
  Println "Usage:"
  Println "  nucleus install    Install Kubernetes master node"
  Println "  nucleus cleanup    Remove Kubernetes installation"

/-- The function `main`, on the argument vector `os.Args`; the value is the exit
status of the process (0 when `main` returns).  A flag set created with
`flag.ExitOnError` exits with status 0 on `ErrHelp` and 2 on any other error. -/
def main (env : Sys) (osArgs : List String) : M Nat :=
  match osArgs with
  | [] => do printUsage; return 1
  | [_] => do printUsage; return 1
  | _ :: sub :: rest =>
    if sub = "install" then
      match flagSetParse rest with
      | .errHelp => ret 0
      | .failed => ret 2
      | .parsed => do
        match ← Install env with
        | some err =>
          Eprint ("Installation failed: " ++ err.Error ++ "\n")
          return 1
        | none =>
        Println "✓ Kubernetes master node with Cilium CNI is ready!"
        return 0
    else if sub = "cleanup" then
      match flagSetParse rest with
      | .errHelp => ret 0
      | .failed => ret 2
      | .parsed => do
        match ← Cleanup env with
        | some err =>
          Eprint ("Cleanup failed: " ++ err.Error ++ "\n")
          return 1
        | none =>
        Println "✓ Cleanup complete! Kubernetes has been removed from the system."
        return 0
    else do
      printUsage
      return 1

/-! ## Notions used to state the properties -/

/-- The command that `runSudo` hands to `Run`: the command itself for root,
otherwise `sudo` followed by the path and the arguments of the command. -/
def sudoCmd (env : Sys) (cmd : Cmd) : Cmd :=
  if env.euid = 0 then cmd
  else
    { Path := (env.lookPath "sudo").getD "sudo"
      Args := "sudo" :: cmd.Path :: cmd.Args.tail
      Env := none
      Stdout := true
      Stderr := true }

/-- The command that `runCommands` builds from one argument vector. -/
def batchCmd (env : Sys) (cmdArgs : List String) : Cmd :=
  (Command env (cmdArgs.headD "") cmdArgs.tail).attachStd

/-- The trace after `runCommands` has run the first `k` commands of a batch. -/
def batchTrace (env : Sys) (commands : List (List String)) (w : World) (k : Nat) : World :=
  w ++ (commands.take k).map fun cmdArgs => Event.run (sudoCmd env (batchCmd env cmdArgs))

/-- The line a step list prints before a step. -/
def stepHeader (step : Step) : Event := .stdout ("→ " ++ step.name ++ "...\n")

/-- The warning `Cleanup` prints after a step that failed. -/
def stepWarning (step : Step) (err : GoError) : Event :=
  .stdout ("  Warning: " ++ step.name ++ ": " ++ err.Error ++ "\n")

/-- Starting in `w`, each step of the list is announced and run once, in list
order, each returns nil, and the trace at the end is `w1`. -/
def allSucceed : List Step → World → World → Prop
  | [], w, w1 => w1 = w
  | step :: steps, w, w1 =>
    ∃ w0, step.fn (w ++ [stepHeader step]) = some (none, w0) ∧ allSucceed steps w0 w1

/-- Starting in `w`, each step of the list is announced and run once, in list
order, whatever it returns (a warning is printed after one that fails), and the
trace at the end is `w1`. -/
def allRun : List Step → World → World → Prop
  | [], w, w1 => w1 = w
  | step :: steps, w, w1 =>
    ∃ r w0, step.fn (w ++ [stepHeader step]) = some (r, w0) ∧
      allRun steps (match r with
        | none => w0
        | some err => w0 ++ [stepWarning step err]) w1

/-- The lines of `printUsage`. -/
def usageLines : World := [
  .stdout "Nucleus - Kubernetes master node installer with Cilium CNI\n",
  .stdout "\n",
  .stdout "Usage:\n",
  .stdout "  nucleus install    Install Kubernetes master node\n",
  .stdout "  nucleus cleanup    Remove Kubernetes installation\n"]

/-- The system `env` with the result of every `sha256sum` command replaced by `r`. -/
def withChecksumResult (env : Sys) (r : Option GoError) : Sys :=
  { env with
    runResult := fun w c => if c.Args.head? = some "sha256sum" then r else env.runResult w c }

/-- The machine `env1` differs from `env`, in what `installCilium` consults, at
most in what `sha256sum` commands return. -/
def sameButChecksum (env env1 : Sys) : Prop :=
  env1.euid = env.euid ∧ env1.lookPath = env.lookPath
    ∧ env1.outputResult = env.outputResult ∧ env1.environ = env.environ
    ∧ ∀ (w0 : World) (c : Cmd), c.Args.head? ≠ some "sha256sum" →
        env1.runResult w0 c = env.runResult w0 c

/-- The command expected to create the `.kube` directory of the account `u`. -/
def kubeMkdirCmd (env : Sys) (u : String) : Cmd :=
  ⟨(env.lookPath "sudo").getD "sudo",
    ["sudo", "-u", u, "mkdir", "-p", "/home/" ++ u ++ "/.kube"], none, false, false⟩

/-- The command expected to copy the admin configuration to the account `u`. -/
def kubeCopyCmd (env : Sys) (u : String) : Cmd :=
  ⟨(env.lookPath "cp").getD "cp",
    ["cp", "-f", "/etc/kubernetes/admin.conf", "/home/" ++ u ++ "/.kube/config"],
    none, false, false⟩

/-- The command `id -u u` or `id -g u`. -/
def idCmd (env : Sys) (option u : String) : Cmd :=
  ⟨(env.lookPath "id").getD "id", ["id", option, u], none, false, false⟩

/-- The command expected to give the copied configuration of `u` to `owner`. -/
def kubeChownCmd (env : Sys) (owner u : String) : Cmd :=
  ⟨(env.lookPath "chown").getD "chown",
    ["chown", owner, "/home/" ++ u ++ "/.kube/config"], none, false, false⟩

/-- The trace of `configureKubectl` up to the lookup of the UID. -/
def kubeTrace (env : Sys) (u : String) (w : World) : World :=
  w ++ [.run (kubeMkdirCmd env u), .run (sudoCmd env (kubeCopyCmd env u))]

/-- The UID that `id -u u` prints, trimmed. -/
def kubeUid (env : Sys) (u : String) (w : World) : String :=
  TrimSpace (env.outputResult (kubeTrace env u w) (idCmd env "-u" u)).1

/-- The GID that `id -g u` prints, trimmed. -/
def kubeGid (env : Sys) (u : String) (w : World) : String :=
  TrimSpace (env.outputResult (kubeTrace env u w ++ [.output (idCmd env "-u" u)])
    (idCmd env "-g" u)).1

/-- The command `uname -m` of `installCilium`. -/
def ciliumUnameCmd (env : Sys) : Cmd :=
  ⟨(env.lookPath "uname").getD "uname", ["uname", "-m"], none, false, false⟩

/-- The command of `installCilium` that looks the version up. -/
def ciliumVersionCmd (env : Sys) : Cmd :=
  ⟨(env.lookPath "bash").getD "bash",
    ["bash", "-c", "curl -s https://raw.githubusercontent.com/cilium/cilium-cli/main/stable.txt"],
    none, false, false⟩

/-- The architecture `installCilium` settles on when started in `w`. -/
def ciliumArch (env : Sys) (w : World) : String :=
  if Contains (env.outputResult (w ++ [.stdout "  Installing Cilium CLI...\n"])
      (ciliumUnameCmd env)).1 "aarch64" then "arm64" else "amd64"

/-- The trace of `installCilium` when the version is looked up. -/
def ciliumLookupTrace (env : Sys) (w : World) : World :=
  w ++ [.stdout "  Installing Cilium CLI...\n", .output (ciliumUnameCmd env)]

/-- The version `installCilium` reads, trimmed. -/
def ciliumVersion (env : Sys) (w : World) : String :=
  TrimSpace (env.outputResult (ciliumLookupTrace env w) (ciliumVersionCmd env)).1

/-- The download command of `installCilium`. -/
def ciliumDownloadCmd (env : Sys) (w : World) : Cmd :=
  ⟨(env.lookPath "bash").getD "bash",
    ["bash", "-c", "curl -L --fail --remote-name-all "
      ++ ("https://github.com/cilium/cilium-cli/releases/download/" ++ ciliumVersion env w
        ++ "/cilium-linux-" ++ ciliumArch env w ++ ".tar.gz") ++ "\x7b,.sha256sum\x7d"],
    none, true, true⟩

/-- The trace of `installCilium` when the download starts. -/
def ciliumDownloadTrace (env : Sys) (w : World) : World :=
  ciliumLookupTrace env w ++ [.output (ciliumVersionCmd env)]

/-- The checksum command of `installCilium`. -/
def ciliumChecksumCmd (env : Sys) (w : World) : Cmd :=
  ⟨(env.lookPath "sha256sum").getD "sha256sum",
    ["sha256sum", "--check", ("cilium-linux-" ++ ciliumArch env w ++ ".tar.gz") ++ ".sha256sum"],
    none, true, true⟩

/-- The extraction command of `installCilium`, before `runSudo` wraps it. -/
def ciliumExtractCmd (env : Sys) (w : World) : Cmd :=
  ⟨(env.lookPath "tar").getD "tar",
    ["tar", "xzvfC", "cilium-linux-" ++ ciliumArch env w ++ ".tar.gz", "/usr/local/bin"],
    none, true, true⟩

/-- The trace of `installCilium` once the extraction has been attempted. -/
def ciliumExtractTrace (env : Sys) (w : World) : World :=
  ciliumDownloadTrace env w ++ [
    .run (ciliumDownloadCmd env w),
    .run (ciliumChecksumCmd env w),
    .run (sudoCmd env (ciliumExtractCmd env w))]

/-! ## Sample machines -/

/-- A root process started by `sudo` from the account `alice`, on which every
subprocess succeeds; `id` reports 1000 and 1001 for alice. -/
def aliceSys : Sys :=
  { euid := 0
    uid := 0
    gid := 0
    getenv := fun k => if k = "SUDO_USER" then "alice" else if k = "HOME" then "/root" else ""
    environ := ["HOME=/root", "SUDO_USER=alice"]
    lookPath := fun _ => none
    runResult := fun _ _ => none
    outputResult := fun _ c =>
      if c.Args = ["id", "-u", "alice"] then ("1000\n", none)
      else if c.Args = ["id", "-g", "alice"] then ("1001\n", none)
      else if c.Args = ["uname", "-m"] then ("x86_64\n", none)
      else ("v0.18.7\n", none)
    readFileResult := fun _ _ => ("[boot]\nsystemd=true\n", none)
    removeAllResult := fun _ _ => none }

/-- An unprivileged process outside WSL (the `grep` for "microsoft" fails) on a
machine where every command with the argument `update` fails as well. -/
def bareSys : Sys :=
  { euid := 1000
    uid := 1000
    gid := 1000
    getenv := fun k => if k = "HOME" then "/home/bob" else if k = "USER" then "bob" else ""
    environ := ["HOME=/home/bob", "USER=bob"]
    lookPath := fun name => some ("/usr/bin/" ++ name)
    runResult := fun _ c =>
      if c.Args.head? = some "grep" then some (.leaf "exit status 1")
      else if c.Args.contains "update" then some (.leaf "exit status 100")
      else none
    outputResult := fun _ _ => ("", none)
    readFileResult := fun _ _ => ("", some (.leaf "open /etc/wsl.conf: no such file or directory"))
    removeAllResult := fun _ _ => none }

/-- A root process inside WSL (the `grep` succeeds) on which every other
subprocess and file operation fails. -/
def brokenSys : Sys :=
  { euid := 0
    uid := 0
    gid := 0
    getenv := fun k => if k = "HOME" then "/root" else ""
    environ := ["HOME=/root"]
    lookPath := fun _ => none
    runResult := fun _ c =>
      if c.Args.head? = some "grep" then none else some (.leaf "exit status 1")
    outputResult := fun _ _ => ("", some (.leaf "exit status 1"))
    readFileResult := fun _ _ => ("", some (.leaf "open /etc/wsl.conf: no such file or directory"))
    removeAllResult := fun _ _ => some (.leaf "unlinkat: permission denied") }

/-- The machine `aliceSys`, except that every `kubectl` command fails. -/
def taintFailSys : Sys :=
  { aliceSys with
    runResult := fun _ c =>
      if c.Args.head? = some "kubectl" then some (.leaf "exit status 1") else none }

/-- A root process started by `sudo` from the account `alice` on which a command
succeeds only if it is the next of the five that `configureKubectl` starts, at
the length of trace at which it starts it; everything else fails. -/
def pickySys : Sys :=
  { euid := 0
    uid := 0
    gid := 0
    getenv := fun k => if k = "SUDO_USER" then "alice" else if k = "HOME" then "/root" else ""
    environ := ["HOME=/root", "SUDO_USER=alice"]
    lookPath := fun _ => none
    runResult := fun w c =>
      if (w.length = 0 ∧ c.Args.head? = some "sudo") ∨ (w.length = 1 ∧ c.Args.head? = some "cp")
          ∨ (w.length = 4 ∧ c.Args.head? = some "chown") then none
      else some (.leaf "exit status 1")
    outputResult := fun w c =>
      if w.length = 2 ∧ c.Args = ["id", "-u", "alice"] then (" 1000\n", none)
      else if w.length = 3 ∧ c.Args = ["id", "-g", "alice"] then ("1001\n", none)
      else ("", some (.leaf "exit status 1"))
    readFileResult := fun _ _ => ("", some (.leaf "open /etc/wsl.conf: no such file or directory"))
    removeAllResult := fun _ _ => some (.leaf "unlinkat: permission denied") }

/-! ## Lemmas -/

theorem bind_eq_seq {α β : Type} (m : M α) (f : α → M β) : (m >>= f) = seq m f := rfl

theorem pure_eq_ret {α : Type} (a : α) : (pure a : M α) = ret a := rfl

theorem filepathBase_sudo : filepathBase "sudo" = "sudo" := by decide

/-- On a command with a non-empty argument vector `runSudo` runs `sudoCmd` and returns its result. -/
theorem runSudo_eq (env : Sys) (cmd : Cmd) (w : World) (h : cmd.Args ≠ []) :
    runSudo env cmd w
      = some (env.runResult w (sudoCmd env cmd), w ++ [.run (sudoCmd env cmd)]) := by
  unfold runSudo sudoCmd
  by_cases h0 : env.euid = 0
  · simp [h0, Cmd.Run]
  · cases hA : cmd.Args with
    | nil => exact absurd hA h
    | cons a rest =>
      simp [h0, Cmd.Run, Command, Cmd.attachStd, filepathBase_sudo]

theorem Command_args_ne_nil (env : Sys) (name : String) (arg : List String) :
    (Command env name arg).Args ≠ [] := by
  simp [Command]

theorem attachStd_args_ne_nil (c : Cmd) (h : c.Args ≠ []) : c.attachStd.Args ≠ [] := by
  simpa [Cmd.attachStd] using h

/-- The form of `runSudo` on a command made by `exec.Command`. -/
theorem runSudo_Command (env : Sys) (name : String) (arg : List String) (w : World) :
    runSudo env (Command env name arg) w
      = some (env.runResult w (sudoCmd env (Command env name arg)),
          w ++ [.run (sudoCmd env (Command env name arg))]) :=
  runSudo_eq env _ w (Command_args_ne_nil env name arg)

/-- The form of `runSudo` on a command made by `exec.Command` with the standard streams attached. -/
theorem runSudo_Command_std (env : Sys) (name : String) (arg : List String) (w : World) :
    runSudo env (Command env name arg).attachStd w
      = some (env.runResult w (sudoCmd env (Command env name arg).attachStd),
          w ++ [.run (sudoCmd env (Command env name arg).attachStd)]) :=
  runSudo_eq env _ w (attachStd_args_ne_nil _ (Command_args_ne_nil env name arg))

theorem batchTrace_zero (env : Sys) (commands : List (List String)) (w : World) :
    batchTrace env commands w 0 = w := by
  simp [batchTrace]

theorem batchTrace_cons_succ (env : Sys) (c : List String) (commands : List (List String))
    (w : World) (k : Nat) :
    batchTrace env (c :: commands) w (k + 1)
      = batchTrace env commands (w ++ [.run (sudoCmd env (batchCmd env c))]) k := by
  simp [batchTrace]

/-- One turn of the loop of `runCommands`. -/
theorem runCommands_cons (env : Sys) (c : List String) (commands : List (List String))
    (w : World) (hc : c ≠ []) :
    runCommands env (c :: commands) w
      = match env.runResult w (sudoCmd env (batchCmd env c)) with
        | some err => some (some err, w ++ [.run (sudoCmd env (batchCmd env c))])
        | none => runCommands env commands (w ++ [.run (sudoCmd env (batchCmd env c))]) := by
  cases c with
  | nil => exact absurd rfl hc
  | cons name arg =>
    simp only [runCommands, seq, runSudo_Command_std, batchCmd, List.headD_cons, List.tail_cons]
    cases env.runResult w (sudoCmd env (Command env name arg).attachStd) <;> simp [ret]

theorem runCommands_stops (env : Sys) (commands : List (List String)) :
    ∀ (w : World) (k : Nat) (a : List String) (e : GoError),
      (∀ c ∈ commands, c ≠ []) →
      commands[k]? = some a →
      (∀ (j : Nat) (b : List String), j < k → commands[j]? = some b →
        env.runResult (batchTrace env commands w j) (sudoCmd env (batchCmd env b)) = none) →
      env.runResult (batchTrace env commands w k) (sudoCmd env (batchCmd env a)) = some e →
      runCommands env commands w = some (some e, batchTrace env commands w (k + 1)) := by
  induction commands with
  | nil => intro w k a e _ hk; simp at hk
  | cons c cs ih =>
    intro w k a e hne hk hbefore hfail
    have hc : c ≠ [] := hne c (List.mem_cons_self _ _)
    rw [runCommands_cons env c cs w hc]
    cases k with
    | zero =>
      simp only [List.getElem?_cons_zero, Option.some.injEq] at hk
      subst hk
      rw [batchTrace_zero] at hfail
      rw [hfail, batchTrace_cons_succ, batchTrace_zero]
    | succ k =>
      have h0 := hbefore 0 c (Nat.succ_pos k) (by simp)
      rw [batchTrace_zero] at h0
      rw [h0, batchTrace_cons_succ]
      apply ih _ k a e (fun c hc => hne c (List.mem_cons_of_mem _ hc))
      · simpa using hk
      · intro j b hj hb
        have := hbefore (j + 1) b (Nat.succ_lt_succ hj) (by simpa using hb)
        rwa [batchTrace_cons_succ] at this
      · rwa [batchTrace_cons_succ] at hfail

theorem runCommands_all (env : Sys) (commands : List (List String)) :
    ∀ (w : World),
      (∀ c ∈ commands, c ≠ []) →
      (∀ (j : Nat) (b : List String), commands[j]? = some b →
        env.runResult (batchTrace env commands w j) (sudoCmd env (batchCmd env b)) = none) →
      runCommands env commands w = some (none, batchTrace env commands w commands.length) := by
  induction commands with
  | nil => intro w _ _; simp [runCommands, ret, batchTrace]
  | cons c cs ih =>
    intro w hne hall
    have hc : c ≠ [] := hne c (List.mem_cons_self _ _)
    rw [runCommands_cons env c cs w hc]
    have h0 := hall 0 c (by simp)
    rw [batchTrace_zero] at h0
    rw [h0, List.length_cons, batchTrace_cons_succ]
    apply ih _ (fun c hc => hne c (List.mem_cons_of_mem _ hc))
    intro j b hb
    have := hall (j + 1) b (by simpa using hb)
    rwa [batchTrace_cons_succ] at this

/-- The loop of `Install` on steps that all succeed. -/
theorem installLoop_all (steps : List Step) :
    ∀ (w w1 : World), allSucceed steps w w1 → installLoop steps w = some (none, w1) := by
  induction steps with
  | nil => intro w w1 h; simp [allSucceed] at h; simp [installLoop, ret, h]
  | cons s ss ih =>
    intro w w1 h
    obtain ⟨w0, h0, hrest⟩ := h
    have hs : s.fn (w ++ [Event.stdout ("→ " ++ s.name ++ "...\n")]) = some (none, w0) := h0
    simp only [installLoop, seq, Print, emit, hs]
    exact ih w0 w1 hrest

/-- The loop of `Install` on steps of which the one at index `i` is the first to fail. -/
theorem installLoop_stops (steps : List Step) :
    ∀ (w w1 w2 : World) (i : Nat) (s : Step) (e : GoError),
      steps[i]? = some s →
      allSucceed (steps.take i) w w1 →
      s.fn (w1 ++ [stepHeader s]) = some (some e, w2) →
      installLoop steps w = some (some (ErrorfW (s.name ++ " failed: ") e), w2) := by
  induction steps with
  | nil => intro w w1 w2 i s e hi; simp at hi
  | cons t ts ih =>
    intro w w1 w2 i s e hi hbefore hfail
    cases i with
    | zero =>
      simp only [List.getElem?_cons_zero, Option.some.injEq] at hi
      subst hi
      simp only [List.take_zero, allSucceed] at hbefore
      subst hbefore
      have hs : t.fn (w1 ++ [Event.stdout ("→ " ++ t.name ++ "...\n")]) = some (some e, w2) := hfail
      simp [installLoop, seq, Print, emit, hs, ret]
    | succ i =>
      simp only [List.take_succ_cons, allSucceed] at hbefore
      obtain ⟨w0, h0, hrest⟩ := hbefore
      have hs : t.fn (w ++ [Event.stdout ("→ " ++ t.name ++ "...\n")]) = some (none, w0) := h0
      simp only [installLoop, seq, Print, emit, hs]
      exact ih w0 w1 w2 i s e (by simpa using hi) hrest hfail

/-- The loop of `Cleanup` runs every step of a list whose steps all return. -/
theorem cleanupLoop_all (steps : List Step)
    (total : ∀ s ∈ steps, ∀ w, ∃ r w0, s.fn w = some (r, w0)) :
    ∀ (w : World), ∃ w1, cleanupLoop steps w = some (none, w1) ∧ allRun steps w w1 := by
  induction steps with
  | nil => intro w; exact ⟨w, by simp [cleanupLoop, ret], by simp [allRun]⟩
  | cons s ss ih =>
    intro w
    obtain ⟨r, w0, h0⟩ := total s (List.mem_cons_self _ _) (w ++ [stepHeader s])
    have hs : s.fn (w ++ [Event.stdout ("→ " ++ s.name ++ "...\n")]) = some (r, w0) := h0
    have ih1 := ih (fun t ht => total t (List.mem_cons_of_mem _ ht))
    cases r with
    | none =>
      obtain ⟨w1, h1, h2⟩ := ih1 w0
      refine ⟨w1, ?_, ⟨none, w0, h0, h2⟩⟩
      simp only [cleanupLoop, seq, Print, emit, hs]
      exact h1
    | some err =>
      obtain ⟨w1, h1, h2⟩ := ih1 (w0 ++ [stepWarning s err])
      refine ⟨w1, ?_, ⟨some err, w0, h0, h2⟩⟩
      simp only [cleanupLoop, seq, Print, emit, hs]
      exact h1

theorem resetKubeadm_total (env : Sys) (w : World) :
    ∃ r w0, resetKubeadm env w = some (r, w0) := by
  simp [resetKubeadm, runSudo_Command_std]

theorem removeKubectlConfig_total (env : Sys) (w : World) :
    ∃ r w0, removeKubectlConfig env w = some (r, w0) := by
  unfold removeKubectlConfig UserHomeDir
  split_ifs <;> simp [ret, RemoveAll]

theorem stopDockerContainers_total (env : Sys) (w : World) :
    ∃ r w0, stopDockerContainers env w = some (r, w0) := by
  simp [stopDockerContainers, bind_eq_seq, pure_eq_ret, seq, ret, Cmd.Run]

theorem runSudoIgnoring_cons (env : Sys) (name : String) (arg : List String) (w : World) :
    runSudoIgnoring env (name :: arg) w
      = some ((), w ++ [.run (sudoCmd env (Command env name arg).attachStd)]) := by
  simp [runSudoIgnoring, seq, ret, runSudo_Command_std]

theorem removeKubernetesPackages_total (env : Sys) (w : World) :
    ∃ r w0, removeKubernetesPackages env w = some (r, w0) := by
  simp [removeKubernetesPackages, bind_eq_seq, pure_eq_ret, seq, ret, forEach,
    runSudoIgnoring_cons]

theorem cleanupDirectories_total (env : Sys) (w : World) :
    ∃ r w0, cleanupDirectories env w = some (r, w0) := by
  simp [cleanupDirectories, bind_eq_seq, pure_eq_ret, seq, ret, forEach, runSudo_Command]

theorem removeRepoSources_total (env : Sys) (w : World) :
    ∃ r w0, removeRepoSources env w = some (r, w0) := by
  simp [removeRepoSources, bind_eq_seq, pure_eq_ret, seq, ret, forEach, runSudo_Command,
    runSudo_Command_std]

theorem enableSwap_total (env : Sys) (w : World) :
    ∃ r w0, enableSwap env w = some (r, w0) := by
  simp [enableSwap, bind_eq_seq, pure_eq_ret, seq, ret, forEach, runSudoIgnoring_cons]

/-- Every step of `Cleanup` returns, whatever its subprocesses do. -/
theorem cleanupSteps_total (env : Sys) :
    ∀ s ∈ cleanupSteps env, ∀ w, ∃ r w0, s.fn w = some (r, w0) := by
  intro s hs w
  simp only [cleanupSteps, List.mem_cons, List.mem_singleton, List.not_mem_nil, or_false] at hs
  rcases hs with h | h | h | h | h | h | h <;> subst h
  · exact resetKubeadm_total env w
  · exact removeKubectlConfig_total env w
  · exact stopDockerContainers_total env w
  · exact removeKubernetesPackages_total env w
  · exact cleanupDirectories_total env w
  · exact removeRepoSources_total env w
  · exact enableSwap_total env w

/-! ## The properties -/

/-- C3. `runSudo` wraps a command by privilege only: for a command with path `p`
and argument vector `a0 :: rest`, the command that is run is the command itself
when the effective UID is 0, and otherwise `sudo` with the argument vector
`"sudo" :: p :: rest`; `runSudo` returns the result of running that command,
and running it is its only effect. -/
theorem runSudo_wraps_by_privilege (env : Sys) (p a0 : String) (rest : List String)
    (e : Option (List String)) (out err : Bool) (w : World) :
    runSudo env ⟨p, a0 :: rest, e, out, err⟩ w
      = Cmd.Run env
          (if env.euid = 0 then ⟨p, a0 :: rest, e, out, err⟩
           else ⟨(env.lookPath "sudo").getD "sudo", "sudo" :: p :: rest, none, true, true⟩) w
    ∧ ∀ c : Cmd, Cmd.Run env c w = some (env.runResult w c, w ++ [.run c]) := by
  refine ⟨?_, fun c => rfl⟩
  rw [runSudo_eq env _ w (by simp)]
  unfold sudoCmd Cmd.Run
  split_ifs <;> rfl

/-- C7. `runCommands` on a list of non-empty argument vectors runs the commands
through `runSudo` in list order: if the command at index `k` is the first to
fail, the result is exactly its error and the trace holds the commands up to
`k` and none after; if none fails, the result is nil and the trace holds every
command. -/
theorem runCommands_in_order_stop_at_first_failure (env : Sys)
    (commands : List (List String)) (w : World) (hne : ∀ c ∈ commands, c ≠ []) :
    (∀ (k : Nat) (a : List String), commands[k]? = some a →
        runSudo env (batchCmd env a) (batchTrace env commands w k)
          = some (env.runResult (batchTrace env commands w k) (sudoCmd env (batchCmd env a)),
              batchTrace env commands w (k + 1)))
    ∧ (∀ (k : Nat) (a : List String) (e : GoError), commands[k]? = some a →
        (∀ (j : Nat) (b : List String), j < k → commands[j]? = some b →
          env.runResult (batchTrace env commands w j) (sudoCmd env (batchCmd env b)) = none) →
        env.runResult (batchTrace env commands w k) (sudoCmd env (batchCmd env a)) = some e →
        runCommands env commands w = some (some e, batchTrace env commands w (k + 1)))
    ∧ ((∀ (j : Nat) (b : List String), commands[j]? = some b →
          env.runResult (batchTrace env commands w j) (sudoCmd env (batchCmd env b)) = none) →
        runCommands env commands w = some (none, batchTrace env commands w commands.length)) := by
  refine ⟨?_, ?_, ?_⟩
  · intro k a hk
    rw [runSudo_eq env (batchCmd env a) _ (by simp [batchCmd, Command, Cmd.attachStd])]
    have hlt : k < commands.length := by
      rcases Nat.lt_or_ge k commands.length with h | h
      · exact h
      · rw [List.getElem?_eq_none h] at hk; cases hk
    have hget : commands[k] = a := by
      rw [List.getElem?_eq_getElem hlt] at hk; exact Option.some.inj hk
    have htr : batchTrace env commands w (k + 1)
        = batchTrace env commands w k ++ [.run (sudoCmd env (batchCmd env a))] := by
      simp [batchTrace, List.take_succ, List.getElem?_eq_getElem hlt, hget]
    rw [htr]
  · intro k a e hk hbefore hfail
    exact runCommands_stops env commands w k a e hne hk hbefore hfail
  · intro hall
    exact runCommands_all env commands w hne hall

/-- C7 on a sample: the second of three commands fails, the third is not run. -/
theorem runCommands_in_order_stop_at_first_failure_witness :
    runCommands bareSys [["true"], ["apt-get", "update"], ["echo", "done"]] []
      = some (some (.leaf "exit status 100"), [
          .run ⟨"/usr/bin/sudo", ["sudo", "/usr/bin/true"], none, true, true⟩,
          .run ⟨"/usr/bin/sudo", ["sudo", "/usr/bin/apt-get", "update"], none, true, true⟩]) :=
  (runCommands_in_order_stop_at_first_failure bareSys
      [["true"], ["apt-get", "update"], ["echo", "done"]] [] (by decide)).2.1
    1 ["apt-get", "update"] (.leaf "exit status 100") rfl
    (by
      intro j b hj hb
      have hj0 : j = 0 := by omega
      subst hj0
      simp only [List.getElem?_cons_zero, Option.some.injEq] at hb
      subst hb
      rfl)
    rfl

/-- C8. Outside WSL, that is whenever `grep -qi microsoft /proc/version` does not
succeed, `enableSystemd` returns nil; its whole trace is the `grep` and one line
of output: no file is read or written and no further command is run. -/
theorem enableSystemd_noop_outside_wsl (env : Sys) (w : World) (e : GoError)
    (h : env.runResult w
      ⟨(env.lookPath "grep").getD "grep", ["grep", "-qi", "microsoft", "/proc/version"],
        none, false, false⟩ = some e) :
    enableSystemd env w = some (none, w ++ [
      .run ⟨(env.lookPath "grep").getD "grep", ["grep", "-qi", "microsoft", "/proc/version"],
        none, false, false⟩,
      .stdout "  Not running in WSL, skipping systemd configuration\n"]) := by
  have hb : filepathBase "grep" = "grep" := by decide
  have hc : Command env "grep" ["-qi", "microsoft", "/proc/version"]
      = ⟨(env.lookPath "grep").getD "grep", ["grep", "-qi", "microsoft", "/proc/version"],
        none, false, false⟩ := by
    simp [Command, hb]
  simp [enableSystemd, bind_eq_seq, pure_eq_ret, seq, ret, Cmd.Run, hc, h, Println, emit]

/-- C8 on a sample: the machine `bareSys` is not a WSL machine. -/
theorem enableSystemd_noop_outside_wsl_witness :
    enableSystemd bareSys [] = some (none, [
      .run ⟨"/usr/bin/grep", ["grep", "-qi", "microsoft", "/proc/version"], none, false, false⟩,
      .stdout "  Not running in WSL, skipping systemd configuration\n"]) :=
  enableSystemd_noop_outside_wsl bareSys [] (.leaf "exit status 1") rfl

/-- C9. When the subcommand is missing or is neither "install" nor "cleanup",
the CLI prints the usage text and exits with status 1; the trace holds the usage
lines only, so neither `Install` nor `Cleanup` is called. -/
theorem main_usage_on_unknown_subcommand (env : Sys) (osArgs : List String) (w : World)
    (h1 : osArgs[1]? ≠ some "install") (h2 : osArgs[1]? ≠ some "cleanup") :
    main env osArgs w = some (1, w ++ usageLines) := by
  have hu : ∀ w : World, (do printUsage; return 1 : M Nat) w = some (1, w ++ usageLines) := by
    intro w
    simp [printUsage, bind_eq_seq, pure_eq_ret, seq, ret, Println, emit, usageLines]
  match osArgs, h1, h2 with
  | [], _, _ => exact hu w
  | [_], _, _ => exact hu w
  | _ :: sub :: rest, h1, h2 =>
    have hi : sub ≠ "install" := by simpa using h1
    have hc : sub ≠ "cleanup" := by simpa using h2
    simp only [main, hi, hc, if_false]
    exact hu w

/-- C9 on samples: no subcommand, and the subcommand `status`. -/
theorem main_usage_on_unknown_subcommand_witness :
    main bareSys ["nucleus"] [] = some (1, usageLines)
    ∧ main bareSys ["nucleus", "status"] [] = some (1, usageLines) :=
  ⟨main_usage_on_unknown_subcommand bareSys ["nucleus"] [] (by decide) (by decide),
   main_usage_on_unknown_subcommand bareSys ["nucleus", "status"] [] (by decide) (by decide)⟩

/-- C1. `Install` is fail-fast.  If, from the trace `w`, the steps before index
`i` are run in list order and all succeed, and step `i` then fails with `e`,
`Install` stops with the trace that step `i` left (no later step is run) and
returns an error whose message is the name of step `i`, " failed: " and the
message of `e`, and which wraps `e`.  If every step succeeds, all are run in
list order and `Install` returns nil. -/
theorem Install_fail_fast (env : Sys) (w : World) :
    (∀ (i : Nat) (s : Step) (e : GoError) (w1 w2 : World),
        (installSteps env)[i]? = some s →
        allSucceed ((installSteps env).take i) w w1 →
        s.fn (w1 ++ [stepHeader s]) = some (some e, w2) →
        ∃ err, Install env w = some (some err, w2)
          ∧ err.Error = s.name ++ " failed: " ++ e.Error ∧ err.Unwrap = some e)
    ∧ (∀ w1 : World, allSucceed (installSteps env) w w1 → Install env w = some (none, w1)) := by
  refine ⟨?_, ?_⟩
  · intro i s e w1 w2 hi hbefore hfail
    exact ⟨ErrorfW (s.name ++ " failed: ") e,
      installLoop_stops (installSteps env) w w1 w2 i s e hi hbefore hfail, rfl, rfl⟩
  · intro w1 h
    exact installLoop_all (installSteps env) w w1 h

/-- C1 on a sample: on `bareSys` the first step succeeds and the second fails at
`apt-get update`; `Install` returns the wrapped error and runs nothing else. -/
theorem Install_fail_fast_witness :
    ∃ err, Install bareSys [] = some (some err, [
        .stdout "→ Enabling systemd in WSL...\n",
        .run ⟨"/usr/bin/grep", ["grep", "-qi", "microsoft", "/proc/version"], none, false, false⟩,
        .stdout "  Not running in WSL, skipping systemd configuration\n",
        .stdout "→ Installing prerequisites...\n",
        .run ⟨"/usr/bin/sudo", ["sudo", "/usr/bin/apt-get", "update"], none, true, true⟩])
      ∧ err.Error = "Installing prerequisites" ++ " failed: " ++ "exit status 100"
      ∧ err.Unwrap = some (.leaf "exit status 100") :=
  (Install_fail_fast bareSys []).1 1 ⟨"Installing prerequisites", installPrerequisites bareSys⟩
    (.leaf "exit status 100") _ _ rfl ⟨_, rfl, rfl⟩ rfl

/-- The trace of `untaintMaster`: the `kubectl taint` command, whatever its result. -/
theorem untaintMaster_eq (env : Sys) (w : World) :
    untaintMaster env w = some (none, w ++ [
      .run ⟨(env.lookPath "kubectl").getD "kubectl",
        ["kubectl", "taint", "nodes", "--all", "node-role.kubernetes.io/control-plane-"],
        some (env.environ ++ ["KUBECONFIG=/etc/kubernetes/admin.conf"]), true, true⟩]) := by
  have hb : filepathBase "kubectl" = "kubectl" := by decide
  simp [untaintMaster, bind_eq_seq, pure_eq_ret, seq, ret, Cmd.Run, Command, Cmd.attachStd, hb]

/-- Running the steps of a list one after another. -/
theorem allSucceed_append (xs ys : List Step) :
    ∀ (w w1 w2 : World), allSucceed xs w w1 → allSucceed ys w1 w2 → allSucceed (xs ++ ys) w w2 := by
  induction xs with
  | nil => intro w w1 w2 h1 h2; simp only [allSucceed] at h1; subst h1; exact h2
  | cons x xs ih =>
    intro w w1 w2 h1 h2
    obtain ⟨w0, h0, hrest⟩ := h1
    exact ⟨w0, h0, ih w0 w1 w2 hrest h2⟩

/-- A computation whose result at `w` is an error does not return nil at `w`. -/
theorem not_nil_of_fails {m : M (Option GoError)} {w : World}
    (hv : (m w).map (fun r => r.1.isSome) = some true) : ¬ ∃ w1, m w = some (none, w1) := by
  rintro ⟨w1, h⟩
  rw [h] at hv
  simp at hv

/-- C6. The taint-removal step never fails the pipeline: `untaintMaster` runs the
`kubectl taint` command and returns nil whatever that command returns; so when
the ten steps before it succeed, `Install` returns nil; and it is the only step
of the list that returns nil on every machine and from every trace. -/
theorem untaintMaster_never_fails (env : Sys) (w : World) :
    untaintMaster env w = some (none, w ++ [
      .run ⟨(env.lookPath "kubectl").getD "kubectl",
        ["kubectl", "taint", "nodes", "--all", "node-role.kubernetes.io/control-plane-"],
        some (env.environ ++ ["KUBECONFIG=/etc/kubernetes/admin.conf"]), true, true⟩])
    ∧ (∀ w1 : World, allSucceed ((installSteps env).take 10) w w1 →
        Install env w = some (none, w1 ++ [
          .stdout "→ Untainting master node...\n",
          .run ⟨(env.lookPath "kubectl").getD "kubectl",
            ["kubectl", "taint", "nodes", "--all", "node-role.kubernetes.io/control-plane-"],
            some (env.environ ++ ["KUBECONFIG=/etc/kubernetes/admin.conf"]), true, true⟩]))
    ∧ (∀ i : Nat, i < (installSteps env).length →
        ((∀ (env1 : Sys) (w0 : World) (s : Step), (installSteps env1)[i]? = some s →
            ∃ w1, s.fn w0 = some (none, w1)) ↔ i = 10)) := by
  refine ⟨untaintMaster_eq env w, ?_, ?_⟩
  · intro w1 h
    apply installLoop_all
    have hsplit : installSteps env
        = (installSteps env).take 10 ++ [⟨"Untainting master node", untaintMaster env⟩] := rfl
    rw [hsplit]
    refine allSucceed_append _ _ w w1 _ h ⟨_, ?_, rfl⟩
    show untaintMaster env _ = _
    rw [untaintMaster_eq]
    have hh : stepHeader ⟨"Untainting master node", untaintMaster env⟩
        = .stdout "→ Untainting master node...\n" := by
      simp only [stepHeader]
      congr 1
    rw [hh]
    simp
  · intro i hi
    have hi11 : i < 11 := hi
    interval_cases i
    · exact ⟨fun h => absurd (h brokenSys [] ⟨_, enableSystemd brokenSys⟩ rfl)
        (not_nil_of_fails rfl), fun h => absurd h (by decide)⟩
    · exact ⟨fun h => absurd (h brokenSys [] ⟨_, installPrerequisites brokenSys⟩ rfl)
        (not_nil_of_fails rfl), fun h => absurd h (by decide)⟩
    · exact ⟨fun h => absurd (h brokenSys [] ⟨_, installContainerd brokenSys⟩ rfl)
        (not_nil_of_fails rfl), fun h => absurd h (by decide)⟩
    · exact ⟨fun h => absurd (h brokenSys [] ⟨_, installKubernetes brokenSys⟩ rfl)
        (not_nil_of_fails rfl), fun h => absurd h (by decide)⟩
    · exact ⟨fun h => absurd (h brokenSys [] ⟨_, configureContainerd brokenSys⟩ rfl)
        (not_nil_of_fails rfl), fun h => absurd h (by decide)⟩
    · exact ⟨fun h => absurd (h brokenSys [] ⟨_, disableSwap brokenSys⟩ rfl)
        (not_nil_of_fails rfl), fun h => absurd h (by decide)⟩
    · exact ⟨fun h => absurd (h brokenSys [] ⟨_, initKubeadm brokenSys⟩ rfl)
        (not_nil_of_fails rfl), fun h => absurd h (by decide)⟩
    · exact ⟨fun h => absurd (h brokenSys [] ⟨_, configureKubectl brokenSys⟩ rfl)
        (not_nil_of_fails rfl), fun h => absurd h (by decide)⟩
    · exact ⟨fun h => absurd (h brokenSys [] ⟨_, installCilium brokenSys⟩ rfl)
        (not_nil_of_fails rfl), fun h => absurd h (by decide)⟩
    · exact ⟨fun h => absurd (h brokenSys [] ⟨_, restartContainerRuntime brokenSys⟩ rfl)
        (not_nil_of_fails rfl), fun h => absurd h (by decide)⟩
    · refine ⟨fun _ => rfl, fun _ env1 w0 s hs => ?_⟩
      have hs1 : s = ⟨"Untainting master node", untaintMaster env1⟩ := by
        simpa [installSteps] using hs.symm
      subst hs1
      exact ⟨_, untaintMaster_eq env1 w0⟩

/-- C6 on a sample: on `taintFailSys` the `kubectl taint` command fails and every
other effect succeeds; `Install` returns nil. -/
theorem untaintMaster_never_fails_witness :
    taintFailSys.runResult [] ⟨"kubectl",
        ["kubectl", "taint", "nodes", "--all", "node-role.kubernetes.io/control-plane-"],
        some (taintFailSys.environ ++ ["KUBECONFIG=/etc/kubernetes/admin.conf"]), true, true⟩
      = some (.leaf "exit status 1")
    ∧ (Install taintFailSys []).map Prod.fst = some none :=
  ⟨rfl, by
    rw [(untaintMaster_never_fails taintFailSys []).2.1 _
      ⟨_, rfl, _, rfl, _, rfl, _, rfl, _, rfl, _, rfl, _, rfl, _, rfl, _, rfl, _, rfl, rfl⟩]
    rfl⟩

/-- The `cleanup` subcommand by the outcome of the flag set on the arguments
after it: `Cleanup` runs only when they are accepted; `-h`/`-help` ends the
process with status 0 and any other flag with status 2, before `Cleanup`. -/
theorem main_cleanup_eq (env : Sys) (program : String) (rest : List String) (w w1 : World)
    (hc : Cleanup env w = some (none, w1)) :
    main env (program :: "cleanup" :: rest) w =
      match flagSetParse rest with
      | .parsed => some (0, w1 ++
          [.stdout "✓ Cleanup complete! Kubernetes has been removed from the system.\n"])
      | .errHelp => some (0, w)
      | .failed => some (2, w) := by
  have hne : ("cleanup" : String) ≠ "install" := by decide
  simp only [main, hne, if_false, if_true]
  cases flagSetParse rest with
  | parsed => simp [bind_eq_seq, pure_eq_ret, seq, ret, hc, Println, emit]
  | errHelp => rfl
  | failed => rfl

/-- C2. `Cleanup` is best-effort: on every machine and from every trace, that is
for every assignment of outcomes to its seven steps, it runs all seven steps
once each in list order, whatever each returns, and returns nil.  So the
`cleanup` subcommand finishes with exit status 0 after the line that reports
completion, and so it does with any further arguments that the flag set
accepts; whatever the further arguments, it never ends with status 1, the
status of the "Cleanup failed" branch. -/
theorem Cleanup_best_effort (env : Sys) (program : String) (w : World) :
    (cleanupSteps env).length = 7 ∧
    ∃ w1, Cleanup env w = some (none, w1) ∧ allRun (cleanupSteps env) w w1 ∧
      main env [program, "cleanup"] w = some (0, w1 ++
        [.stdout "✓ Cleanup complete! Kubernetes has been removed from the system.\n"]) ∧
      (∀ rest : List String, flagSetParse rest = .parsed →
        main env (program :: "cleanup" :: rest) w = some (0, w1 ++
          [.stdout "✓ Cleanup complete! Kubernetes has been removed from the system.\n"])) ∧
      (∀ rest : List String,
        (main env (program :: "cleanup" :: rest) w).map Prod.fst ≠ some 1) := by
  refine ⟨rfl, ?_⟩
  obtain ⟨w1, h1, h2⟩ := cleanupLoop_all (cleanupSteps env) (cleanupSteps_total env) w
  have hc : Cleanup env w = some (none, w1) := h1
  refine ⟨w1, h1, h2, ?_, ?_, ?_⟩
  · exact main_cleanup_eq env program [] w w1 hc
  · intro rest hp
    rw [main_cleanup_eq env program rest w w1 hc, hp]
  · intro rest
    rw [main_cleanup_eq env program rest w w1 hc]
    cases flagSetParse rest <;> simp

/-- C2 on a sample: on `brokenSys` the first step of `Cleanup` fails (as do the
others that can), and the `cleanup` subcommand still ends with status 0. -/
theorem Cleanup_best_effort_witness :
    (resetKubeadm brokenSys [.stdout "→ Resetting kubeadm...\n"]).map Prod.fst
      = some (some (.leaf "exit status 1"))
    ∧ (main brokenSys ["nucleus", "cleanup"] []).map Prod.fst = some 0 :=
  ⟨rfl, by
    obtain ⟨w1, _, _, hm, _⟩ := (Cleanup_best_effort brokenSys "nucleus" []).2
    rw [hm]
    rfl⟩

/-- C5, as the claim states it, fails: the list has eleven steps, its names are
not the ten of the claim, and the fourth step installs kubelet, kubeadm and
kubectl. -/
theorem installSteps_not_the_ten :
    (installSteps aliceSys).length = 11
    ∧ (installSteps aliceSys).map Step.name ≠ [
        "Enabling systemd in WSL",
        "Installing prerequisites",
        "Installing containerd",
        "Configuring containerd for Kubernetes",
        "Disabling swap",
        "Initializing Kubernetes master",
        "Configuring kubectl",
        "Installing Cilium CNI",
        "Restarting container runtime",
        "Untainting master node"]
    ∧ ((installSteps aliceSys)[3]?.map fun s => (s.name, s.fn [])) =
        some ("Installing Kubernetes tools", some (none, [
          .run ⟨"bash", ["bash", "-c", "curl -fsSL https://pkgs.k8s.io/core:/stable:/v1.31/deb/Release.key | gpg --dearmor -o /usr/share/keyrings/kubernetes-apt-keyring.gpg --yes"], none, true, true⟩,
          .run ⟨"bash", ["bash", "-c", "echo 'deb [signed-by=/usr/share/keyrings/kubernetes-apt-keyring.gpg] https://pkgs.k8s.io/core:/stable:/v1.31/deb/ /' > /etc/apt/sources.list.d/kubernetes.list"], none, false, false⟩,
          .run ⟨"apt-get", ["apt-get", "update"], none, true, true⟩,
          .run ⟨"apt-get", ["apt-get", "install", "-y", "kubelet", "kubeadm", "kubectl"], none, true, true⟩,
          .run ⟨"apt-mark", ["apt-mark", "hold", "kubelet", "kubeadm", "kubectl"], none, true, true⟩])) := by
  refine ⟨rfl, by decide, rfl⟩

/-- C5, amended. The step list of `Install` is, in this order and with no other
step among them: enable systemd, install the OS prerequisites, install
containerd, install the Kubernetes tools, configure containerd, disable swap and
fix mount propagation, run `kubeadm init`, write the kubectl config, install the
Cilium CLI and Cilium, restart containerd and kubelet, remove the control-plane
taint. -/
theorem installSteps_order (env : Sys) :
    (installSteps env).map Step.name = [
        "Enabling systemd in WSL",
        "Installing prerequisites",
        "Installing containerd",
        "Installing Kubernetes tools",
        "Configuring containerd for Kubernetes",
        "Disabling swap",
        "Initializing Kubernetes master",
        "Configuring kubectl",
        "Installing Cilium CNI",
        "Restarting container runtime",
        "Untainting master node"]
    ∧ (installSteps env).map Step.fn = [
        enableSystemd env,
        installPrerequisites env,
        installContainerd env,
        installKubernetes env,
        configureContainerd env,
        disableSwap env,
        initKubeadm env,
        configureKubectl env,
        installCilium env,
        restartContainerRuntime env,
        untaintMaster env] :=
  ⟨rfl, rfl⟩

/-- The whole of `configureKubectl` for a sudo user `u`, on any machine `env1`
that agrees with `env` in all that the function consults on this path. -/
theorem configureKubectl_sudo_eq (env env1 : Sys) (u : String) (w : World)
    (hu : env.getenv "SUDO_USER" = u) (h1 : u ≠ "") (h2 : u ≠ "root")
    (e1 : env1.getenv = env.getenv) (e2 : env1.euid = env.euid)
    (e3 : env1.lookPath = env.lookPath) (e4 : env1.runResult = env.runResult)
    (e5 : env1.outputResult = env.outputResult)
    (hmk : env.runResult w (kubeMkdirCmd env u) = none)
    (hcp : env.runResult (w ++ [.run (kubeMkdirCmd env u)]) (sudoCmd env (kubeCopyCmd env u))
      = none)
    (hidu : (env.outputResult (kubeTrace env u w) (idCmd env "-u" u)).2 = none)
    (hidg : (env.outputResult (kubeTrace env u w ++ [.output (idCmd env "-u" u)])
      (idCmd env "-g" u)).2 = none)
    (hch : env.runResult
      (kubeTrace env u w ++ [.output (idCmd env "-u" u), .output (idCmd env "-g" u)])
      (sudoCmd env (kubeChownCmd env (kubeUid env u w ++ ":" ++ kubeGid env u w) u)) = none) :
    configureKubectl env1 w = some (none, w ++ [
      .run (kubeMkdirCmd env u),
      .run (sudoCmd env (kubeCopyCmd env u)),
      .output (idCmd env "-u" u),
      .output (idCmd env "-g" u),
      .run (sudoCmd env (kubeChownCmd env (kubeUid env u w ++ ":" ++ kubeGid env u w) u)),
      .stdout ("  Configured kubectl for user " ++ u ++ " at /home/" ++ u ++ "/.kube/config\n")]) := by
  have b1 : filepathBase "sudo" = "sudo" := by decide
  have b2 : filepathBase "cp" = "cp" := by decide
  have b3 : filepathBase "id" = "id" := by decide
  have b4 : filepathBase "chown" = "chown" := by decide
  have s1 : ∀ a : String, a ++ "/.kube" ++ "/config" = a ++ "/.kube/config" := by
    intro a; rw [String.append_assoc]; rfl
  have s2 : ∀ a : String, " at " ++ ("/home/" ++ a) = " at /home/" ++ a := by
    intro a; rw [← String.append_assoc]; rfl
  have c1 : Command env1 "sudo" ["-u", u, "mkdir", "-p", "/home/" ++ u ++ "/.kube"]
      = kubeMkdirCmd env u := by
    simp [Command, kubeMkdirCmd, b1, e3]
  have c2 : Command env1 "cp" ["-f", "/etc/kubernetes/admin.conf",
      "/home/" ++ u ++ "/.kube" ++ "/config"] = kubeCopyCmd env u := by
    simp [Command, kubeCopyCmd, b2, e3, s1, String.append_assoc]
  have c3 : ∀ o : String, Command env1 "id" [o, u] = idCmd env o u := by
    intro o; simp [Command, idCmd, b3, e3]
  have c4 : ∀ o : String, Command env1 "chown" [o, "/home/" ++ u ++ "/.kube" ++ "/config"]
      = kubeChownCmd env o u := by
    intro o; simp [Command, kubeChownCmd, b4, e3, s1, String.append_assoc]
  have hs : ∀ c : Cmd, sudoCmd env1 c = sudoCmd env c := by
    intro c; simp [sudoCmd, e2, e3]
  have hk1 : (kubeCopyCmd env u).Args ≠ [] := by simp [kubeCopyCmd]
  have hk2 : ∀ o : String, (kubeChownCmd env o u).Args ≠ [] := by intro o; simp [kubeChownCmd]
  simp only [kubeTrace, kubeUid, kubeGid, List.append_assoc, List.cons_append,
    List.nil_append] at hidu hidg hch
  simp [configureKubectl, configureKubectlChown, e1, hu, h1, h2, bind_eq_seq, pure_eq_ret,
    seq, ret, Cmd.Run, Cmd.Output, c1, c2, c3, c4, e4, e5, hmk, hcp, runSudo_eq, hk1, hk2, hs,
    hidu, hidg, hch, Print, emit, kubeUid, kubeGid, kubeTrace]
  simp only [String.append_assoc, s2]

/-- C4. With `SUDO_USER=u` for a user name `u` that is neither empty nor "root",
and each of the five subprocesses that `configureKubectl` starts succeeding when
it is started, `configureKubectl` creates `/home/u/.kube` as the user `u`,
copies `/etc/kubernetes/admin.conf` to `/home/u/.kube/config`, and gives that
file to "uid:gid", the trimmed outputs of `id -u u` and `id -g u`; the UID and
GID of the running process play no part.  Nothing is assumed of any other
command, nor of these five at any other point of a run. -/
theorem configureKubectl_for_sudo_user (env : Sys) (u : String) (w : World)
    (hu : env.getenv "SUDO_USER" = u) (h1 : u ≠ "") (h2 : u ≠ "root")
    (hmk : env.runResult w (kubeMkdirCmd env u) = none)
    (hcp : env.runResult (w ++ [.run (kubeMkdirCmd env u)]) (sudoCmd env (kubeCopyCmd env u))
      = none)
    (hidu : (env.outputResult (kubeTrace env u w) (idCmd env "-u" u)).2 = none)
    (hidg : (env.outputResult (kubeTrace env u w ++ [.output (idCmd env "-u" u)])
      (idCmd env "-g" u)).2 = none)
    (hch : env.runResult
      (kubeTrace env u w ++ [.output (idCmd env "-u" u), .output (idCmd env "-g" u)])
      (sudoCmd env (kubeChownCmd env (kubeUid env u w ++ ":" ++ kubeGid env u w) u)) = none) :
    configureKubectl env w = some (none, w ++ [
        .run (kubeMkdirCmd env u),
        .run (sudoCmd env (kubeCopyCmd env u)),
        .output (idCmd env "-u" u),
        .output (idCmd env "-g" u),
        .run (sudoCmd env (kubeChownCmd env (kubeUid env u w ++ ":" ++ kubeGid env u w) u)),
        .stdout ("  Configured kubectl for user " ++ u ++ " at /home/" ++ u ++ "/.kube/config\n")])
    ∧ ∀ uid gid : Nat,
        configureKubectl { env with uid := uid, gid := gid } w = configureKubectl env w := by
  have key := configureKubectl_sudo_eq env env u w hu h1 h2 rfl rfl rfl rfl rfl
    hmk hcp hidu hidg hch
  refine ⟨key, fun uid gid => ?_⟩
  rw [key, configureKubectl_sudo_eq env { env with uid := uid, gid := gid } u w hu h1 h2
    rfl rfl rfl rfl rfl hmk hcp hidu hidg hch]

/-- C4 on a sample: on `pickySys` only the five commands of `configureKubectl`
succeed, each only at its own point of the run; for alice the owner is
"1000:1001", what `id` prints for her, while the process itself runs with UID
and GID 0. -/
theorem configureKubectl_for_sudo_user_witness :
    pickySys.uid = 0 ∧ pickySys.gid = 0
    ∧ pickySys.runResult [] ⟨"grep", ["grep", "-qi", "microsoft", "/proc/version"],
        none, false, false⟩ = some (.leaf "exit status 1")
    ∧ configureKubectl pickySys [] = some (none, [
        .run ⟨"sudo", ["sudo", "-u", "alice", "mkdir", "-p", "/home/alice/.kube"], none, false, false⟩,
        .run ⟨"cp", ["cp", "-f", "/etc/kubernetes/admin.conf", "/home/alice/.kube/config"], none, false, false⟩,
        .output ⟨"id", ["id", "-u", "alice"], none, false, false⟩,
        .output ⟨"id", ["id", "-g", "alice"], none, false, false⟩,
        .run ⟨"chown", ["chown", "1000:1001", "/home/alice/.kube/config"], none, false, false⟩,
        .stdout "  Configured kubectl for user alice at /home/alice/.kube/config\n"]) :=
  ⟨rfl, rfl, rfl,
    (configureKubectl_for_sudo_user pickySys "alice" [] rfl (by decide) (by decide)
      rfl rfl rfl rfl rfl).1⟩

/-- What `installCilium` does once the version lookup and the download have
succeeded: the checksum command is run and its result dropped, the extraction is
attempted, and the result of the checksum command appears nowhere. -/
theorem installCilium_after_download (env env1 : Sys) (w : World)
    (e1 : env1.euid = env.euid) (e2 : env1.lookPath = env.lookPath)
    (e3 : env1.outputResult = env.outputResult) (e4 : env1.environ = env.environ)
    (e5 : ∀ (w0 : World) (c : Cmd), c.Args.head? ≠ some "sha256sum" →
      env1.runResult w0 c = env.runResult w0 c)
    (hv : (env.outputResult (ciliumLookupTrace env w) (ciliumVersionCmd env)).2 = none)
    (hd : env.runResult (ciliumDownloadTrace env w) (ciliumDownloadCmd env w) = none) :
    installCilium env1 w =
      match env.runResult (ciliumDownloadTrace env w ++ [
          .run (ciliumDownloadCmd env w), .run (ciliumChecksumCmd env w)])
          (sudoCmd env (ciliumExtractCmd env w)) with
      | some err => some (some (ErrorfW "failed to extract Cilium CLI: " err),
          ciliumExtractTrace env w)
      | none => (Cmd.Run env
          ⟨(env.lookPath "cilium").getD "cilium", ["cilium", "install", "--version", "1.18.2"],
            some (env.environ ++ ["KUBECONFIG=/etc/kubernetes/admin.conf"]), true, true⟩)
          (ciliumExtractTrace env w ++ [
            .run ⟨(env.lookPath "rm").getD "rm",
              ["rm", "-f", "cilium-linux-" ++ ciliumArch env w ++ ".tar.gz",
                ("cilium-linux-" ++ ciliumArch env w ++ ".tar.gz") ++ ".sha256sum"],
              none, false, false⟩,
            .stdout "  Installing Cilium CNI...\n"]) := by
  have b1 : filepathBase "uname" = "uname" := by decide
  have b2 : filepathBase "bash" = "bash" := by decide
  have b3 : filepathBase "sha256sum" = "sha256sum" := by decide
  have b4 : filepathBase "tar" = "tar" := by decide
  have b5 : filepathBase "rm" = "rm" := by decide
  have b6 : filepathBase "cilium" = "cilium" := by decide
  have c1 : Command env1 "uname" ["-m"] = ciliumUnameCmd env := by
    simp [Command, ciliumUnameCmd, b1, e2]
  have c2 : Command env1 "bash" ["-c",
      "curl -s https://raw.githubusercontent.com/cilium/cilium-cli/main/stable.txt"]
      = ciliumVersionCmd env := by
    simp [Command, ciliumVersionCmd, b2, e2]
  have hs : ∀ c : Cmd, sudoCmd env1 c = sudoCmd env c := by
    intro c; simp [sudoCmd, e1, e2]
  have hx : (ciliumExtractCmd env w).Args ≠ [] := by simp [ciliumExtractCmd]
  have n1 : (ciliumDownloadCmd env w).Args.head? ≠ some "sha256sum" := by
    simp [ciliumDownloadCmd]
  have n2 : (sudoCmd env (ciliumExtractCmd env w)).Args.head? ≠ some "sha256sum" := by
    unfold sudoCmd ciliumExtractCmd
    split_ifs <;> simp
  have hd1 := hd
  simp only [ciliumDownloadTrace, ciliumLookupTrace, List.append_assoc, List.cons_append,
    List.nil_append] at hd1
  have hv1 := hv
  simp only [ciliumLookupTrace] at hv1
  have hA : (if Contains (env.outputResult (w ++ [Event.stdout "  Installing Cilium CLI...\n"])
      (ciliumUnameCmd env)).1 "aarch64" then "arm64" else "amd64") = ciliumArch env w := rfl
  have hD : ∀ (ar : String), ar = ciliumArch env w →
      (Command env1 "bash" ["-c", "curl -L --fail --remote-name-all "
        ++ ("https://github.com/cilium/cilium-cli/releases/download/"
          ++ TrimSpace (env.outputResult (w ++ [Event.stdout "  Installing Cilium CLI...\n",
              Event.output (ciliumUnameCmd env)]) (ciliumVersionCmd env)).1
          ++ "/cilium-linux-" ++ ar ++ ".tar.gz") ++ "\x7b,.sha256sum\x7d"]).attachStd
        = ciliumDownloadCmd env w := by
    intro ar har
    subst har
    simp [Command, Cmd.attachStd, ciliumDownloadCmd, ciliumVersion, ciliumLookupTrace, b2, e2]
  have hC : ∀ (ar : String), ar = ciliumArch env w →
      (Command env1 "sha256sum" ["--check", ("cilium-linux-" ++ ar ++ ".tar.gz")
        ++ ".sha256sum"]).attachStd = ciliumChecksumCmd env w := by
    intro ar har
    subst har
    simp [Command, Cmd.attachStd, ciliumChecksumCmd, b3, e2]
  have hX : ∀ (ar : String), ar = ciliumArch env w →
      (Command env1 "tar" ["xzvfC", "cilium-linux-" ++ ar ++ ".tar.gz",
        "/usr/local/bin"]).attachStd = ciliumExtractCmd env w := by
    intro ar har
    subst har
    simp [Command, Cmd.attachStd, ciliumExtractCmd, b4, e2]
  have p1 : "  Installing Cilium CLI..." ++ "\n" = "  Installing Cilium CLI...\n" := rfl
  have p2 : "  Installing Cilium CNI..." ++ "\n" = "  Installing Cilium CNI...\n" := rfl
  have p3 : "KUBECONFIG=" ++ "/etc/kubernetes/admin.conf"
      = "KUBECONFIG=/etc/kubernetes/admin.conf" := rfl
  unfold installCilium
  simp only [p1, p2, p3, bind_eq_seq, pure_eq_ret, seq, ret, Cmd.Run, Cmd.Output, Println, emit, c1, c2, e3,
    hA, hD _ rfl, hC _ rfl, hX _ rfl, List.append_assoc, List.cons_append, List.nil_append, hv1]
  rw [e5 _ _ n1, hd1]
  simp only [seq, ret, Cmd.Run, Println, emit, p2, p3,
    runSudo_eq env1 _ _ hx, hs, e5 _ _ n2, ciliumExtractTrace, ciliumDownloadTrace,
    ciliumLookupTrace, List.append_assoc, List.cons_append, List.nil_append]
  cases env.runResult (w ++ [Event.stdout "  Installing Cilium CLI...\n",
      Event.output (ciliumUnameCmd env), Event.output (ciliumVersionCmd env),
      Event.run (ciliumDownloadCmd env w), Event.run (ciliumChecksumCmd env w)])
      (sudoCmd env (ciliumExtractCmd env w)) with
  | some err => rfl
  | none =>
    simp only [Command, Cmd.attachStd, b5, b6, e2, e4, if_true, seq, Cmd.Run, emit,
      List.append_assoc, List.cons_append, List.nil_append]
    rw [e5 _ _ (by simp)]

/-- C10. `installCilium` ignores the result of the checksum verification.  On any
machine, in a run in which the version lookup and the download succeed, the
`sha256sum --check` command is run and the extraction into `/usr/local/bin` is
attempted right after it, whatever the verification returned; and on any other
machine that differs at most in what `sha256sum` commands return, so that the
verification may succeed on one and fail on the other, `installCilium` returns
the same value and leaves the same trace. -/
theorem installCilium_ignores_checksum (env env1 : Sys) (w : World)
    (hsame : sameButChecksum env env1)
    (hv : (env.outputResult (ciliumLookupTrace env w) (ciliumVersionCmd env)).2 = none)
    (hd : env.runResult (ciliumDownloadTrace env w) (ciliumDownloadCmd env w) = none) :
    (∃ res rest, installCilium env w = some (res, ciliumExtractTrace env w ++ rest))
    ∧ installCilium env1 w = installCilium env w := by
  obtain ⟨e1, e2, e3, e4, e5⟩ := hsame
  have h0 := installCilium_after_download env env w rfl rfl rfl rfl (fun _ _ _ => rfl) hv hd
  have h1 := installCilium_after_download env env1 w e1 e2 e3 e4 e5 hv hd
  refine ⟨?_, by rw [h1, h0]⟩
  rw [h0]
  cases env.runResult (ciliumDownloadTrace env w ++ [
      .run (ciliumDownloadCmd env w), .run (ciliumChecksumCmd env w)])
      (sudoCmd env (ciliumExtractCmd env w)) with
  | some err =>
    exact ⟨some (ErrorfW "failed to extract Cilium CLI: " err), [], by simp⟩
  | none =>
    simp only [Cmd.Run, List.append_assoc]
    exact ⟨_, _, rfl⟩

/-- C10 on a sample: the verification succeeds on `aliceSys` and fails on the
machine that differs from it in `sha256sum` only; the tarball is extracted all
the same, and `installCilium` returns the same on both. -/
theorem installCilium_ignores_checksum_witness :
    aliceSys.runResult (ciliumDownloadTrace aliceSys [] ++ [.run (ciliumDownloadCmd aliceSys [])])
        (ciliumChecksumCmd aliceSys []) = none
    ∧ (withChecksumResult aliceSys (some (.leaf "exit status 1"))).runResult
        (ciliumDownloadTrace aliceSys [] ++ [.run (ciliumDownloadCmd aliceSys [])])
        (ciliumChecksumCmd aliceSys []) = some (.leaf "exit status 1")
    ∧ (∃ res rest, installCilium aliceSys []
          = some (res, [
              .stdout "  Installing Cilium CLI...\n",
              .output ⟨"uname", ["uname", "-m"], none, false, false⟩,
              .output ⟨"bash", ["bash", "-c", "curl -s https://raw.githubusercontent.com/cilium/cilium-cli/main/stable.txt"], none, false, false⟩,
              .run ⟨"bash", ["bash", "-c", "curl -L --fail --remote-name-all https://github.com/cilium/cilium-cli/releases/download/v0.18.7/cilium-linux-amd64.tar.gz\x7b,.sha256sum\x7d"], none, true, true⟩,
              .run ⟨"sha256sum", ["sha256sum", "--check", "cilium-linux-amd64.tar.gz.sha256sum"], none, true, true⟩,
              .run ⟨"tar", ["tar", "xzvfC", "cilium-linux-amd64.tar.gz", "/usr/local/bin"], none, true, true⟩]
            ++ rest))
    ∧ installCilium (withChecksumResult aliceSys (some (.leaf "exit status 1"))) []
        = installCilium aliceSys [] :=
  ⟨rfl, rfl,
    installCilium_ignores_checksum aliceSys
      (withChecksumResult aliceSys (some (.leaf "exit status 1"))) []
      ⟨rfl, rfl, rfl, rfl, fun _ c hc => by simp [withChecksumResult, hc]⟩ rfl rfl⟩

end Nucleus
